import Mathlib

/-!
Shallow embedding of the native-extension layer of the `runestick` scripting
runtime: the `Module` registry (`crates/runestick/src/module.rs`) and the
worked sequence-module consumer (`crates/runestick/src/modules/vec.rs`).

Rust `HashMap`s are modelled as association lists with exact-key lookup,
machine integers as `Int`/`Nat`, fallible operations as `Except`, and the
mutable operand `Stack` by explicit state passing: every handler takes the
stack (head = top of stack) and returns the result together with the stack
it leaves behind, so that error paths record exactly which values were
consumed.
-/

set_option autoImplicit false

namespace Runestick

/-- Stable 64-bit fingerprint of a type or named symbol (`runestick::Hash`).
Modelled as a plain natural number: the claims only ever compare hashes for
equality, which is all the registry itself does. -/
abbrev Hash := Nat

/-- Dot-separated path identifying a registrable symbol (`runestick::Item`).
Equality is structural on the component list. -/
structure Item where
  path : List String
  deriving DecidableEq, Repr

/-- Display-only description of a registered type (`runestick::TypeInfo`):
either a built-in static type or a host `Any` type, identified by name. -/
inductive TypeInfo where
  | staticType (name : String)
  | any (name : String)
  deriving DecidableEq, Repr

/-- Operator hooks (`runestick::Protocol`); a closed enumerated set, each with
its own stable identity.  Only the hooks exercised by the sequence module are
listed; the registry treats all of them uniformly. -/
inductive Protocol where
  | GET
  | SET
  | INDEX_GET
  | INDEX_SET
  | INTO_ITER
  | STRING_DEBUG
  | ADD_ASSIGN
  deriving DecidableEq, Repr

/-- Discriminant tags for the built-in internal enums (`runestick::TypeCheck`),
shared with the interpreter's pattern-matching fast path. -/
inductive TypeCheck where
  | option (variant : Nat)
  | result (variant : Nat)
  | generatorState (variant : Nat)
  deriving DecidableEq, Repr

/-- Whether a range includes its upper bound (`runestick::RangeLimits`). -/
inductive RangeLimits where
  | halfOpen
  | closed
  deriving DecidableEq, Repr

/-- Call-time VM errors (`runestick::VmErrorKind`), restricted to the variants
produced by the embedded code.  `panicked` models a Rust panic (the original
function does not return on that path). -/
inductive VmErrorKind where
  | badArgumentCount (actual : Nat) (expected : Nat)
  | badArgument (error : String) (arg : Nat)
  | stackError
  | unsupportedIndexGet (target : TypeInfo) (index : TypeInfo)
  | valueToIntegerCoercionError (fromValue : Int) (toType : String)
  | outOfRange (index : Int) (len : Int)
  | expectedInteger (actual : TypeInfo)
  | panicked (msg : String)
  deriving DecidableEq, Repr

/-- Dynamic VM values (`runestick::Value`), restricted to the catalogue the
embedded code touches.  A `future` carries the eventual outcome of the wrapped
asynchronous body; `slice` is the `Slice` host object of the vec module;
`any` is an arbitrary other host object identified by hash and name. -/
inductive Value where
  | unit
  | boolV (b : Bool)
  | integer (i : Int)
  | vec (items : List Value)
  | optionV (v : Option Value)
  | resultOk (v : Value)
  | resultErr (v : Value)
  | genComplete (v : Value)
  | genYielded (v : Value)
  | range (start : Option Value) (stop : Option Value) (limits : RangeLimits)
  | slice (items : List Value)
  | future (outcome : Except VmErrorKind Value)
  | any (hash : Hash) (name : String)

/-- Display descriptor of a dynamic value (`Value::type_info`).  The original
returns `Result` because reading an `Any` object's descriptor needs a borrow;
no borrow can fail in this model, so the function is total. -/
def Value.type_info : Value → TypeInfo
  | .unit => .staticType "unit"
  | .boolV _ => .staticType "bool"
  | .integer _ => .staticType "int"
  | .vec _ => .staticType "Vec"
  | .optionV _ => .staticType "Option"
  | .resultOk _ => .staticType "Result"
  | .resultErr _ => .staticType "Result"
  | .genComplete _ => .staticType "GeneratorState"
  | .genYielded _ => .staticType "GeneratorState"
  | .range _ _ _ => .staticType "Range"
  | .slice _ => .any "Slice"
  | .future _ => .staticType "Future"
  | .any _ name => .any name

/-- Modelled from the spec: `runestick::ConstValue` (not under `src/`), "the
VM's constant representation" into which `register_constant` evaluates the
supplied value at registration time.  Only constant-representable values
convert; everything else is a conversion error. -/
inductive ConstValue where
  | unit
  | boolV (b : Bool)
  | integer (i : Int)
  deriving DecidableEq, Repr

/-- Modelled from the spec: conversion of a dynamic `Value` into the constant
representation (`ConstValue::from_value`, not under `src/`); "conversion
failure surfaces as a registration error immediately". -/
def constValueFromValue : Value → Except VmErrorKind ConstValue
  | .unit => .ok .unit
  | .boolV b => .ok (.boolV b)
  | .integer i => .ok (.integer i)
  | v => .error (.expectedInteger v.type_info)

/-- Modelled from the spec: the interpreter's pattern-matching fast path
"uses \[the discriminant tag\] for pattern-matching without boxing
indirection"; a dynamic value matches the `TypeCheck` tag of the variant it
was constructed as.  The interpreter loop itself is not under `src/`. -/
def typeCheckMatches : TypeCheck → Value → Bool
  | .option 0, .optionV (some _) => true
  | .option 1, .optionV none => true
  | .result 0, .resultOk _ => true
  | .result 1, .resultErr _ => true
  | .generatorState 0, .genComplete _ => true
  | .generatorState 1, .genYielded _ => true
  | _, _ => false

/-! ## Association-list model of `HashMap` -/

/-- Exact-key membership test (`HashMap::contains_key`). -/
def mapContains {K V : Type} [DecidableEq K] (m : List (K × V)) (k : K) : Bool :=
  m.any (fun p => decide (p.1 = k))

/-- Exact-key lookup (`HashMap::get`). -/
def mapGet {K V : Type} [DecidableEq K] : List (K × V) → K → Option V
  | [], _ => none
  | (k0, v0) :: rest, k => if k0 = k then some v0 else mapGet rest k

/-- Insertion (`HashMap::insert`): replaces any existing binding for the key
and returns the map together with the previous value, if any. -/
def mapInsert {K V : Type} [DecidableEq K] : List (K × V) → K → V → List (K × V) × Option V
  | [], k, v => ([(k, v)], none)
  | (k0, v0) :: rest, k, v =>
    if k0 = k then ((k, v) :: rest, some v0)
    else
      let r := mapInsert rest k v
      ((k0, v0) :: r.1, r.2)

theorem mapContains_mapInsert_self {K V : Type} [DecidableEq K]
    (m : List (K × V)) (k : K) (v : V) :
    mapContains (mapInsert m k v).1 k = true := by
  induction m with
  | nil => simp [mapInsert, mapContains]
  | cons p rest ih =>
    obtain ⟨k0, v0⟩ := p
    by_cases h : k0 = k
    · simp [mapInsert, mapContains, h]
    · simp [mapInsert, mapContains, h]
      simpa [mapContains] using ih

theorem mapGet_mapInsert_self {K V : Type} [DecidableEq K]
    (m : List (K × V)) (k : K) (v : V) :
    mapGet (mapInsert m k v).1 k = some v := by
  induction m with
  | nil => simp [mapInsert, mapGet]
  | cons p rest ih =>
    obtain ⟨k0, v0⟩ := p
    by_cases h : k0 = k <;> simp [mapInsert, mapGet, h, ih]

theorem mapInsert_snd_eq_mapGet {K V : Type} [DecidableEq K]
    (m : List (K × V)) (k : K) (v : V) :
    (mapInsert m k v).2 = mapGet m k := by
  induction m with
  | nil => simp [mapInsert, mapGet]
  | cons p rest ih =>
    obtain ⟨k0, v0⟩ := p
    by_cases h : k0 = k <;> simp [mapInsert, mapGet, h, ih]

theorem mapGet_isSome_of_mapContains {K V : Type} [DecidableEq K]
    (m : List (K × V)) (k : K) (h : mapContains m k = true) :
    ∃ v, mapGet m k = some v := by
  induction m with
  | nil => simp [mapContains] at h
  | cons p rest ih =>
    obtain ⟨k0, v0⟩ := p
    by_cases hk : k0 = k
    · exact ⟨v0, by simp [mapGet, hk]⟩
    · simp [mapContains, hk] at h
      obtain ⟨v, hv⟩ := ih (by simpa [mapContains] using h)
      exact ⟨v, by simp [mapGet, hk, hv]⟩

/-! ## Calling convention (`impl_register` in `module.rs`)

A Rust handler of `N` statically typed parameters is modelled by its arity
together with a per-position coercion (`UnsafeFromValue::from_value` for the
parameter at that ordinal, yielding the coerced native argument, still
represented as a `Value`) and a body (the native call composed with the
`ToValue` conversion of its return value).  The operand stack is a
`List Value` with the head as the top of the stack. -/

/-- Type-erased handler shape stored in the registry (`context::Handler`):
stack in, argument count in; result out together with the stack the call
leaves behind. -/
abbrev Handler := List Value → Nat → Except VmErrorKind Unit × List Value

/-- Drain the top `count` values off the stack (`Stack::drain_stack_top`),
yielding them deepest-first — the order the handler's argument iterator
produces — together with the remaining stack.  Fails with a stack error when
fewer than `count` values are present. -/
def drain_stack_top (stack : List Value) (count : Nat) :
    Except VmErrorKind (List Value × List Value) :=
  if stack.length < count then .error .stackError
  else .ok ((stack.take count).reverse, stack.drop count)

/-- Coerce the drained arguments in order (the `@unsafe-vars` arm of
`impl_register`): the value at ordinal `i` (counting from `base`) that fails
its parameter's conversion turns into `BadArgument` carrying that ordinal. -/
def coerceArgs (coerce : Nat → Value → Except String Value) :
    Nat → List Value → Except VmErrorKind (List Value)
  | _, [] => .ok []
  | i, v :: vs =>
    match coerce i v with
    | .error e => .error (.badArgument e i)
    | .ok w =>
      match coerceArgs coerce (i + 1) vs with
      | .error e => .error e
      | .ok ws => .ok (w :: ws)

/-- Synchronous free-function call path (`Function::fn_call` as generated by
`impl_register` for arity `n`): check the argument count, drain, coerce each
argument (ordinals from 0), invoke the body, convert and push the result. -/
def Function.fn_call (n : Nat) (coerce : Nat → Value → Except String Value)
    (body : List Value → Except VmErrorKind Value)
    (stack : List Value) (args : Nat) : Except VmErrorKind Unit × List Value :=
  if args ≠ n then (.error (.badArgumentCount args n), stack)
  else
    match drain_stack_top stack n with
    | .error e => (.error e, stack)
    | .ok (drained, rest) =>
      match coerceArgs coerce 0 drained with
      | .error e => (.error e, rest)
      | .ok cargs =>
        match body cargs with
        | .error e => (.error e, rest)
        | .ok ret => (.ok (), ret :: rest)

/-- Asynchronous free-function call path (`AsyncFunction::fn_call`): argument
count check and coercion happen synchronously exactly as in the synchronous
path, but instead of running the body the call pushes a `Future` value
capturing the coerced arguments; the body's outcome (including the `ToValue`
conversion of its output) is only realised inside that future. -/
def AsyncFunction.fn_call (n : Nat) (coerce : Nat → Value → Except String Value)
    (body : List Value → Except VmErrorKind Value)
    (stack : List Value) (args : Nat) : Except VmErrorKind Unit × List Value :=
  if args ≠ n then (.error (.badArgumentCount args n), stack)
  else
    match drain_stack_top stack n with
    | .error e => (.error e, stack)
    | .ok (drained, rest) =>
      match coerceArgs coerce 0 drained with
      | .error e => (.error e, rest)
      | .ok cargs => (.ok (), Value.future (body cargs) :: rest)

/-- Synchronous instance-function call path (`InstFn::fn_call` for `count`
non-receiver parameters, declared arity `count + 1`): the deepest drained
value is the receiver, coerced as argument 0 (`@unsafe-inst-vars`); the
remaining parameters carry ordinals `1` through `count`.  The unreachable
empty-drain arm models the `it.next().unwrap()` panic. -/
def InstFn.fn_call (count : Nat) (coerceInst : Value → Except String Value)
    (coerce : Nat → Value → Except String Value)
    (body : Value → List Value → Except VmErrorKind Value)
    (stack : List Value) (args : Nat) : Except VmErrorKind Unit × List Value :=
  if args ≠ count + 1 then (.error (.badArgumentCount args (count + 1)), stack)
  else
    match drain_stack_top stack (count + 1) with
    | .error e => (.error e, stack)
    | .ok ([], rest) => (.error (.panicked "it.next().unwrap()"), rest)
    | .ok (inst :: restArgs, rest) =>
      match coerceInst inst with
      | .error e => (.error (.badArgument e 0), rest)
      | .ok instV =>
        match coerceArgs coerce 1 restArgs with
        | .error e => (.error e, rest)
        | .ok cargs =>
          match body instV cargs with
          | .error e => (.error e, rest)
          | .ok ret => (.ok (), ret :: rest)

/-- Asynchronous instance-function call path (`AsyncInstFn::fn_call`):
receiver and arguments are coerced synchronously as in `InstFn.fn_call`, and
a `Future` value capturing them is pushed instead of the body's result. -/
def AsyncInstFn.fn_call (count : Nat) (coerceInst : Value → Except String Value)
    (coerce : Nat → Value → Except String Value)
    (body : Value → List Value → Except VmErrorKind Value)
    (stack : List Value) (args : Nat) : Except VmErrorKind Unit × List Value :=
  if args ≠ count + 1 then (.error (.badArgumentCount args (count + 1)), stack)
  else
    match drain_stack_top stack (count + 1) with
    | .error e => (.error e, stack)
    | .ok ([], rest) => (.error (.panicked "it.next().unwrap()"), rest)
    | .ok (inst :: restArgs, rest) =>
      match coerceInst inst with
      | .error e => (.error (.badArgument e 0), rest)
      | .ok instV =>
        match coerceArgs coerce 1 restArgs with
        | .error e => (.error e, rest)
        | .ok cargs => (.ok (), Value.future (body instV cargs) :: rest)

/-! ## Registry records and the `Module` aggregate -/

/-- Registered unit type (`ModuleUnitType`). -/
structure ModuleUnitType where
  name : String
  deriving DecidableEq, Repr

/-- Free-function record (`ModuleFn`): the type-erased handler and its
declared arity; raw handlers record no arity. -/
structure ModuleFn where
  handler : Handler
  args : Option Nat

/-- Macro-handler record (`ModuleMacro`); the handler is the type-erased
downcast-then-call closure, whose internals no claim touches. -/
structure ModuleMacro where
  handler : Value → Except String Value

/-- Kind of an associated function (`ModuleAssociatedKind`): a field-protocol
hook or a plain instance method. -/
inductive ModuleAssociatedKind where
  | fieldFn (protocol : Protocol)
  | inst
  deriving DecidableEq, Repr

/-- Uniqueness key for associated functions (`ModuleAssocKey`): owning type
hash, member name hash, and kind. -/
structure ModuleAssocKey where
  type_hash : Hash
  hash : Hash
  kind : ModuleAssociatedKind
  deriving DecidableEq, Repr

/-- Associated-function record (`ModuleAssociatedFn`). -/
structure ModuleAssociatedFn where
  handler : Handler
  args : Option Nat
  type_info : TypeInfo
  name : String

/-- Registered-type record (`ModuleType`). -/
structure ModuleType where
  name : String
  type_info : TypeInfo
  deriving DecidableEq, Repr

/-- Internal-enum variant record (`ModuleInternalVariant`): name,
interpreter discriminant tag, constructor arity, constructor handler, and
the constructed value's type hash. -/
structure ModuleInternalVariant where
  name : String
  type_check : TypeCheck
  args : Nat
  constructor : Handler
  type_hash : Hash

/-- Internal-enum record (`ModuleInternalEnum`); `static_type` is the name of
the enum's `StaticType`. -/
structure ModuleInternalEnum where
  name : String
  base_type : Item
  static_type : String
  variants : List ModuleInternalVariant

/-- Construct an internal enum with no variants (`ModuleInternalEnum::new`). -/
def ModuleInternalEnum.new (name : String) (base_type : Item)
    (static_type : String) : ModuleInternalEnum :=
  { name := name, base_type := base_type, static_type := static_type
    variants := [] }

/-- Append a variant (`ModuleInternalEnum::variant`); the generic constructor
`C : Function<Args>` of the original is supplied already wrapped by
`Function.fn_call`, together with `C::args()` and `C::Return::type_hash()`. -/
def ModuleInternalEnum.variant (e : ModuleInternalEnum) (name : String)
    (type_check : TypeCheck) (args : Nat) (constructor : Handler)
    (type_hash : Hash) : ModuleInternalEnum :=
  { e with
    variants := e.variants ++
      [{ name := name, type_check := type_check, args := args
         constructor := constructor, type_hash := type_hash }] }

/-- The module registry (`Module`): all registration maps plus the module's
own item prefix. -/
structure Module where
  item : Item
  functions : List (Item × ModuleFn)
  macros : List (Item × ModuleMacro)
  constants : List (Item × ConstValue)
  associated_functions : List (ModuleAssocKey × ModuleAssociatedFn)
  types : List (Hash × ModuleType)
  unit_type : Option ModuleUnitType
  internal_enums : List ModuleInternalEnum

/-- Setup-time registration errors (`runestick::ContextError`, restricted to
the variants `module.rs` produces). -/
inductive ContextError where
  | conflictingType (item : Item) (existing : TypeInfo)
  | conflictingFunctionName (name : Item)
  | conflictingConstantName (name : Item)
  | conflictingInstanceFunction (type_info : TypeInfo) (name : String)
  | unitAlreadyPresent
  | valueError (error : VmErrorKind)
  deriving DecidableEq, Repr

/-- Outcome of a registration call: the `Result<(), ContextError>` the Rust
method returns, paired with the module state it leaves behind (the methods
take `&mut self`, so an error does not undo mutations already made). -/
abbrev RegOutcome := Except ContextError Unit × Module

/-- Empty root module (`Module::new` / `Module::default`). -/
def Module.new : Module :=
  { item := ⟨[]⟩, functions := [], macros := [], constants := []
    associated_functions := [], types := [], unit_type := none
    internal_enums := [] }

/-- Module rooted at the given item (`Module::with_item`). -/
def Module.with_item (item : Item) : Module :=
  { Module.new with item := item }

/-- Register a type (`Module::ty`), generic over `T : Named + TypeOf +
InstallWith`; the type's hash, name, descriptor and `install_with` hook stand
in for the type parameter.  Note the original inserts first and only then
checks the returned previous entry, so a conflict has already replaced the
old record by the time the error is returned. -/
def Module.ty (m : Module) (type_hash : Hash) (tyName : String)
    (type_info : TypeInfo) (installWith : Module → RegOutcome) : RegOutcome :=
  let t : ModuleType := { name := tyName, type_info := type_info }
  let r := mapInsert m.types type_hash t
  let m' := { m with types := r.1 }
  match r.2 with
  | some old => (.error (.conflictingType ⟨[tyName]⟩ old.type_info), m')
  | none => installWith m'

/-- Register the unit type (`Module::unit`). -/
def Module.unit (m : Module) (name : String) : RegOutcome :=
  match m.unit_type with
  | some _ => (.error .unitAlreadyPresent, m)
  | none => (.ok (), { m with unit_type := some { name := name } })

/-- Register a free function (`Module::function`), generic over
`Func : Function<Args>`; the declared arity `n` and the wrapped handler stand
in for the function parameter. -/
def Module.function (m : Module) (name : Item) (n : Nat)
    (handler : Handler) : RegOutcome :=
  if mapContains m.functions name then
    (.error (.conflictingFunctionName name), m)
  else
    (.ok (),
      { m with functions :=
          (mapInsert m.functions name { handler := handler, args := some n }).1 })

/-- Register an asynchronous free function (`Module::async_function`): same
key space (`functions`) and same conflict check as `Module.function`; the
handler supplied here is the future-wrapping `AsyncFunction.fn_call`. -/
def Module.async_function (m : Module) (name : Item) (n : Nat)
    (handler : Handler) : RegOutcome :=
  if mapContains m.functions name then
    (.error (.conflictingFunctionName name), m)
  else
    (.ok (),
      { m with functions :=
          (mapInsert m.functions name { handler := handler, args := some n }).1 })

/-- Register a raw handler (`Module::raw_fn`): stored with no declared
arity. -/
def Module.raw_fn (m : Module) (name : Item) (handler : Handler) : RegOutcome :=
  if mapContains m.functions name then
    (.error (.conflictingFunctionName name), m)
  else
    (.ok (),
      { m with functions :=
          (mapInsert m.functions name { handler := handler, args := none }).1 })

/-- Register a native macro handler (source method `Module::macro_`): keyed
by `Item` in the `macros` map; a duplicate reports a function-name
conflict, exactly as the source does. -/
def Module.registerMacro (m : Module) (name : Item)
    (handler : Value → Except String Value) : RegOutcome :=
  if mapContains m.macros name then
    (.error (.conflictingFunctionName name), m)
  else
    (.ok (),
      { m with macros := (mapInsert m.macros name { handler := handler }).1 })

/-- Register a constant (`Module::constant`), generic over `V : ToValue`; the
outcome of `value.to_value()` stands in for the value parameter.  The
converted `ConstValue` is stored, so no conversion is deferred to use. -/
def Module.constant (m : Module) (name : Item)
    (toValueResult : Except VmErrorKind Value) : RegOutcome :=
  if mapContains m.constants name then
    (.error (.conflictingConstantName name), m)
  else
    match toValueResult with
    | .error e => (.error (.valueError e), m)
    | .ok v =>
      match constValueFromValue v with
      | .error e => (.error (.valueError e), m)
      | .ok cv =>
        (.ok (), { m with constants := (mapInsert m.constants name cv).1 })

/-- Install an associated function (`Module::assoc_fn`), generic over
`Func : InstFn<Args>` and the name; `type_hash`/`type_info` stand for
`Func::instance_type_hash()`/`Func::instance_type_info()`, `name_hash` for
`name.inst_fn_name_hash()`, `name` for `name.into_name()`, and `n` for
`Func::args()` (which counts the receiver). -/
def Module.assoc_fn (m : Module) (type_hash : Hash) (type_info : TypeInfo)
    (name_hash : Hash) (name : String) (kind : ModuleAssociatedKind)
    (n : Nat) (handler : Handler) : RegOutcome :=
  let key : ModuleAssocKey := { type_hash := type_hash, hash := name_hash, kind := kind }
  if mapContains m.associated_functions key then
    (.error (.conflictingInstanceFunction type_info name), m)
  else
    (.ok (),
      { m with associated_functions :=
          (mapInsert m.associated_functions key
            { handler := handler, args := some n, type_info := type_info
              name := name }).1 })

/-- Register an instance function (`Module::inst_fn`): `assoc_fn` with kind
`Instance`. -/
def Module.inst_fn (m : Module) (type_hash : Hash) (type_info : TypeInfo)
    (name_hash : Hash) (name : String) (n : Nat) (handler : Handler) :
    RegOutcome :=
  m.assoc_fn type_hash type_info name_hash name .inst n handler

/-- Register a field-protocol hook (`Module::field_fn`): `assoc_fn` with kind
`FieldFn protocol`. -/
def Module.field_fn (m : Module) (protocol : Protocol) (type_hash : Hash)
    (type_info : TypeInfo) (name_hash : Hash) (name : String) (n : Nat)
    (handler : Handler) : RegOutcome :=
  m.assoc_fn type_hash type_info name_hash name (.fieldFn protocol) n handler

/-- Register an asynchronous instance function (`Module::async_inst_fn`):
the source duplicates the `assoc_fn` body with kind `Instance` and an
`AsyncInstFn` handler. -/
def Module.async_inst_fn (m : Module) (type_hash : Hash) (type_info : TypeInfo)
    (name_hash : Hash) (name : String) (n : Nat) (handler : Handler) :
    RegOutcome :=
  let key : ModuleAssocKey := { type_hash := type_hash, hash := name_hash, kind := .inst }
  if mapContains m.associated_functions key then
    (.error (.conflictingInstanceFunction type_info name), m)
  else
    (.ok (),
      { m with associated_functions :=
          (mapInsert m.associated_functions key
            { handler := handler, args := some n, type_info := type_info
              name := name }).1 })

/-! ## Internal-enum registrations (`Module::option` / `result` /
`generator_state`)

The variant constructors of the source are ordinary Rust values
(`Option::<Value>::Some`, `Result::<Value, Value>::Ok`, …) wrapped through
the generic calling convention by `ModuleInternalEnum::variant`; here each
constructor's body and its `Function.fn_call` wrapping are spelled out. -/

/-- Trivial parameter coercion for a `Value`-typed parameter
(`Value : UnsafeFromValue` is the identity conversion and cannot fail). -/
def valueCoerce : Nat → Value → Except String Value :=
  fun _ v => .ok v

/-- Model type hash of `Option<Value>` (`crate::OPTION_TYPE`). -/
def OPTION_TYPE_HASH : Hash := 101

/-- Model type hash of `Result<Value, Value>` (`crate::RESULT_TYPE`). -/
def RESULT_TYPE_HASH : Hash := 102

/-- Model type hash of `GeneratorState` (`crate::GENERATOR_STATE_TYPE`). -/
def GENERATOR_STATE_TYPE_HASH : Hash := 103

/-- Body of `Option::<Value>::Some` composed with `ToValue` (one argument). -/
def optionSomeBody : List Value → Except VmErrorKind Value :=
  fun l => .ok (.optionV l.head?)

/-- Body of the closure `|| Option::<Value>::None` composed with `ToValue`
(zero arguments). -/
def optionNoneBody : List Value → Except VmErrorKind Value :=
  fun _ => .ok (.optionV none)

/-- Body of `Result::<Value, Value>::Ok` composed with `ToValue`. -/
def resultOkBody : List Value → Except VmErrorKind Value :=
  fun l => .ok (.resultOk (l.headD .unit))

/-- Body of `Result::<Value, Value>::Err` composed with `ToValue`. -/
def resultErrBody : List Value → Except VmErrorKind Value :=
  fun l => .ok (.resultErr (l.headD .unit))

/-- Body of `GeneratorState::Complete` composed with `ToValue`. -/
def genCompleteBody : List Value → Except VmErrorKind Value :=
  fun l => .ok (.genComplete (l.headD .unit))

/-- Body of `GeneratorState::Yielded` composed with `ToValue`. -/
def genYieldedBody : List Value → Except VmErrorKind Value :=
  fun l => .ok (.genYielded (l.headD .unit))

/-- Constructor handler stored for the `Some` variant. -/
def optionSomeHandler : Handler := Function.fn_call 1 valueCoerce optionSomeBody

/-- Constructor handler stored for the `None` variant. -/
def optionNoneHandler : Handler := Function.fn_call 0 valueCoerce optionNoneBody

/-- Constructor handler stored for the `Ok` variant. -/
def resultOkHandler : Handler := Function.fn_call 1 valueCoerce resultOkBody

/-- Constructor handler stored for the `Err` variant. -/
def resultErrHandler : Handler := Function.fn_call 1 valueCoerce resultErrBody

/-- Constructor handler stored for the `Complete` variant. -/
def genCompleteHandler : Handler := Function.fn_call 1 valueCoerce genCompleteBody

/-- Constructor handler stored for the `Yielded` variant. -/
def genYieldedHandler : Handler := Function.fn_call 1 valueCoerce genYieldedBody

/-- The internal enum `Module::option` builds: `Some` tagged
`TypeCheck::Option(0)` with one argument, then `None` tagged
`TypeCheck::Option(1)` with zero arguments. -/
def optionInternalEnum (name : Item) : ModuleInternalEnum :=
  ((ModuleInternalEnum.new "Option" name "Option").variant
      "Some" (.option 0) 1 optionSomeHandler OPTION_TYPE_HASH).variant
    "None" (.option 1) 0 optionNoneHandler OPTION_TYPE_HASH

/-- The internal enum `Module::result` builds: `Ok` tagged
`TypeCheck::Result(0)` and `Err` tagged `TypeCheck::Result(1)`, one argument
each. -/
def resultInternalEnum (name : Item) : ModuleInternalEnum :=
  ((ModuleInternalEnum.new "Result" name "Result").variant
      "Ok" (.result 0) 1 resultOkHandler RESULT_TYPE_HASH).variant
    "Err" (.result 1) 1 resultErrHandler RESULT_TYPE_HASH

/-- The internal enum `Module::generator_state` builds: `Complete` tagged
`TypeCheck::GeneratorState(0)` and `Yielded` tagged
`TypeCheck::GeneratorState(1)`, one argument each. -/
def generatorStateInternalEnum (name : Item) : ModuleInternalEnum :=
  ((ModuleInternalEnum.new "GeneratorState" name "GeneratorState").variant
      "Complete" (.generatorState 0) 1 genCompleteHandler
      GENERATOR_STATE_TYPE_HASH).variant
    "Yielded" (.generatorState 1) 1 genYieldedHandler
    GENERATOR_STATE_TYPE_HASH

/-- Register the `Option` internal enum (`Module::option`): unconditionally
appends the descriptor and returns `Ok(())` — no duplicate detection. -/
def Module.option (m : Module) (name : Item) : RegOutcome :=
  (.ok (), { m with internal_enums := m.internal_enums ++ [optionInternalEnum name] })

/-- Register the `Result` internal enum (`Module::result`): unconditionally
appends the descriptor and returns `Ok(())`. -/
def Module.result (m : Module) (name : Item) : RegOutcome :=
  (.ok (), { m with internal_enums := m.internal_enums ++ [resultInternalEnum name] })

/-- Register the `GeneratorState` internal enum (`Module::generator_state`):
unconditionally appends the descriptor and returns `Ok(())`. -/
def Module.generator_state (m : Module) (name : Item) : RegOutcome :=
  (.ok (),
    { m with internal_enums := m.internal_enums ++ [generatorStateInternalEnum name] })

/-! ## The sequence module (`modules/vec.rs`) -/

/-- Conversion `<usize>::from_value` used by the range arms of
`vec_get`/`slice_get`: a non-negative integer converts, a negative integer is
an integer-coercion error, anything else is a type mismatch. -/
def usizeFromValue : Value → Except VmErrorKind Nat
  | .integer i =>
    if i < 0 then .error (.valueToIntegerCoercionError i "usize")
    else .ok i.toNat
  | v => .error (.expectedInteger v.type_info)

/-- Rust slice indexing `&value[start..end]` (and the `..=`, open-ended and
full variants) on a list of values: in-bounds ranges yield the sub-list, and
an out-of-bounds or inverted range models the Rust panic. -/
def rustSliceIndex (v : List Value) (start stop : Option Nat)
    (limits : RangeLimits) : Except VmErrorKind (List Value) :=
  match start, stop, limits with
  | some s, some e, .halfOpen =>
    if s ≤ e ∧ e ≤ v.length then .ok ((v.drop s).take (e - s))
    else .error (.panicked "slice index out of range")
  | some s, some e, .closed =>
    if s ≤ e + 1 ∧ e + 1 ≤ v.length then .ok ((v.drop s).take (e + 1 - s))
    else .error (.panicked "slice index out of range")
  | some s, none, _ =>
    if s ≤ v.length then .ok (v.drop s)
    else .error (.panicked "slice index out of range")
  | none, some e, .halfOpen =>
    if e ≤ v.length then .ok (v.take e)
    else .error (.panicked "slice index out of range")
  | none, some e, .closed =>
    if e + 1 ≤ v.length then .ok (v.take (e + 1))
    else .error (.panicked "slice index out of range")
  | none, none, _ => .ok v

/-- Shared range arm of `vec_get`/`slice_get`: convert the optional bounds
with `<usize>::from_value` (propagating conversion errors, as `transpose()?`
does) and build the sub-slice value. -/
def rangeGet (items : List Value) (start stop : Option Value)
    (limits : RangeLimits) : Except VmErrorKind Value :=
  match (start.map usizeFromValue).traverse id with
  | .error e => .error e
  | .ok s =>
    match (stop.map usizeFromValue).traverse id with
    | .error e => .error e
    | .ok e =>
      match rustSliceIndex items s e limits with
      | .error err => .error err
      | .ok sub => .ok (.slice sub)

/-- Index hook of the dynamic `Vec` type (`vec_get` in `modules/vec.rs`):
an integer key is converted to `usize` (negative keys fail the conversion)
and looked up — out of range yields the dynamic `None` option, in range the
`Some` of the element; a range key produces a `Slice`; any other key is an
`UnsupportedIndexGet` naming `Vec::type_info()` and the key's type info. -/
def vec_get (vec : List Value) (key : Value) : Except VmErrorKind Value :=
  match key with
  | .integer int =>
    if int < 0 then .error (.valueToIntegerCoercionError int "usize")
    else .ok (.optionV (vec.get? int.toNat))
  | .range start stop limits => rangeGet vec start stop limits
  | index =>
    .error (.unsupportedIndexGet (.staticType "Vec") index.type_info)

/-- Index hook of the `Slice` host type (`slice_get` in `modules/vec.rs`):
identical to `vec_get` except that the fallback error names
`Slice::type_info()`. -/
def slice_get (slice : List Value) (key : Value) : Except VmErrorKind Value :=
  match key with
  | .integer int =>
    if int < 0 then .error (.valueToIntegerCoercionError int "usize")
    else .ok (.optionV (slice.get? int.toNat))
  | .range start stop limits => rangeGet slice start stop limits
  | index =>
    .error (.unsupportedIndexGet (.any "Slice") index.type_info)

/-- Predicate separating the two handled key shapes of the index hooks from
the fallback arm. -/
def Value.isIndexKey : Value → Bool
  | .integer _ => true
  | .range _ _ _ => true
  | _ => false

/-! ## Claim theorems -/

/-- C10: the internal-enum registrations `option()`, `result()` and
`generator_state()` never return an error and perform no duplicate
detection — for any module state each call succeeds, appends exactly one
`ModuleInternalEnum` descriptor to `internal_enums`, and calling the same
registration twice yields two more entries. -/
theorem c10_internal_enums_append_without_duplicate_detection
    (m : Module) (name : Item) :
    m.option name =
      (.ok (), { m with internal_enums := m.internal_enums ++ [optionInternalEnum name] }) ∧
    m.result name =
      (.ok (), { m with internal_enums := m.internal_enums ++ [resultInternalEnum name] }) ∧
    m.generator_state name =
      (.ok (),
        { m with internal_enums := m.internal_enums ++ [generatorStateInternalEnum name] }) ∧
    (m.option name).2.internal_enums.length = m.internal_enums.length + 1 ∧
    (m.result name).2.internal_enums.length = m.internal_enums.length + 1 ∧
    (m.generator_state name).2.internal_enums.length = m.internal_enums.length + 1 ∧
    ((m.option name).2.option name).2.internal_enums.length = m.internal_enums.length + 2 ∧
    ((m.result name).2.result name).2.internal_enums.length = m.internal_enums.length + 2 ∧
    ((m.generator_state name).2.generator_state name).2.internal_enums.length =
      m.internal_enums.length + 2 := by
  refine ⟨rfl, rfl, rfl, ?_, ?_, ?_, ?_, ?_, ?_⟩ <;>
    simp [Module.option, Module.result, Module.generator_state]

/-- C5: `option()` registers `Some` with tag `TypeCheck::Option(0)` and a
one-argument constructor and `None` with `TypeCheck::Option(1)` and a
zero-argument constructor; `result()` registers `Ok` with
`TypeCheck::Result(0)` and `Err` with `TypeCheck::Result(1)`, one argument
each; `generator_state()` registers `Complete` with
`TypeCheck::GeneratorState(0)` and `Yielded` with
`TypeCheck::GeneratorState(1)`; and invoking each variant's stored
constructor through the generic calling convention yields a dynamic value
whose discriminant matches the tag declared at registration. -/
theorem c5_internal_enum_discriminant_tags
    (m : Module) (name : Item) (v : Value) (stack : List Value) :
    (m.option name).2.internal_enums.getLast? = some (optionInternalEnum name) ∧
    (m.result name).2.internal_enums.getLast? = some (resultInternalEnum name) ∧
    (m.generator_state name).2.internal_enums.getLast? =
      some (generatorStateInternalEnum name) ∧
    (optionInternalEnum name).variants.map
        (fun vr => (vr.name, vr.type_check, vr.args, vr.constructor)) =
      [("Some", .option 0, 1, optionSomeHandler),
       ("None", .option 1, 0, optionNoneHandler)] ∧
    (resultInternalEnum name).variants.map
        (fun vr => (vr.name, vr.type_check, vr.args, vr.constructor)) =
      [("Ok", .result 0, 1, resultOkHandler),
       ("Err", .result 1, 1, resultErrHandler)] ∧
    (generatorStateInternalEnum name).variants.map
        (fun vr => (vr.name, vr.type_check, vr.args, vr.constructor)) =
      [("Complete", .generatorState 0, 1, genCompleteHandler),
       ("Yielded", .generatorState 1, 1, genYieldedHandler)] ∧
    optionSomeHandler (v :: stack) 1 = (.ok (), .optionV (some v) :: stack) ∧
    typeCheckMatches (.option 0) (.optionV (some v)) = true ∧
    optionNoneHandler stack 0 = (.ok (), .optionV none :: stack) ∧
    typeCheckMatches (.option 1) (.optionV none) = true ∧
    resultOkHandler (v :: stack) 1 = (.ok (), .resultOk v :: stack) ∧
    typeCheckMatches (.result 0) (.resultOk v) = true ∧
    resultErrHandler (v :: stack) 1 = (.ok (), .resultErr v :: stack) ∧
    typeCheckMatches (.result 1) (.resultErr v) = true ∧
    genCompleteHandler (v :: stack) 1 = (.ok (), .genComplete v :: stack) ∧
    typeCheckMatches (.generatorState 0) (.genComplete v) = true ∧
    genYieldedHandler (v :: stack) 1 = (.ok (), .genYielded v :: stack) ∧
    typeCheckMatches (.generatorState 1) (.genYielded v) = true := by
  refine ⟨?_, ?_, ?_, rfl, rfl, rfl, ?_, rfl, ?_, rfl, ?_, rfl, ?_, rfl, ?_, rfl, ?_, rfl⟩
  · simp [Module.option]
  · simp [Module.result]
  · simp [Module.generator_state]
  all_goals
    simp [optionSomeHandler, optionNoneHandler, resultOkHandler, resultErrHandler,
      genCompleteHandler, genYieldedHandler, Function.fn_call, drain_stack_top,
      coerceArgs, valueCoerce, optionSomeBody, optionNoneBody, resultOkBody,
      resultErrBody, genCompleteBody, genYieldedBody]

/-- C3 counterexample: calling the index-get hooks with the out-of-range
integer key `5` on a one-element sequence does not produce an "unsupported
index" error — both hooks succeed reporting the dynamic `None` option. -/
theorem c3_counterexample_out_of_range_integer_succeeds :
    vec_get [.integer 1] (.integer 5) = .ok (.optionV none) ∧
    slice_get [.integer 1] (.integer 5) = .ok (.optionV none) :=
  ⟨rfl, rfl⟩

/-- C3 (amended): for the index-get hooks `vec_get`/`slice_get`, a key of an
unsupported type (neither integer nor range) returns an `UnsupportedIndexGet`
error naming the sequence's type info and the key's type info; an
out-of-range non-negative integer key instead succeeds with the dynamic
`None` option, and a negative integer key fails with an integer-coercion
error naming the key and the target type. -/
theorem c3_index_get_error_shape (vec sl : List Value) (key : Value) (i : Int) :
    (key.isIndexKey = false →
      vec_get vec key =
        .error (.unsupportedIndexGet (.staticType "Vec") key.type_info) ∧
      slice_get sl key =
        .error (.unsupportedIndexGet (.any "Slice") key.type_info)) ∧
    (0 ≤ i → vec.length ≤ i.toNat →
      vec_get vec (.integer i) = .ok (.optionV none)) ∧
    (0 ≤ i → sl.length ≤ i.toNat →
      slice_get sl (.integer i) = .ok (.optionV none)) ∧
    (i < 0 →
      vec_get vec (.integer i) =
        .error (.valueToIntegerCoercionError i "usize") ∧
      slice_get sl (.integer i) =
        .error (.valueToIntegerCoercionError i "usize")) := by
  refine ⟨?_, ?_, ?_, ?_⟩
  · intro hk
    cases key <;> simp [Value.isIndexKey] at hk <;>
      simp [vec_get, slice_get]
  · intro hpos hlen
    simp [vec_get, Int.not_lt.mpr hpos, List.get?_eq_none]
    exact hlen
  · intro hpos hlen
    simp [slice_get, Int.not_lt.mpr hpos, List.get?_eq_none]
    exact hlen
  · intro hneg
    simp [vec_get, slice_get, hneg]

/-- C3 witness: the amended statement applied at a bool key, an out-of-range
integer key, and a negative integer key, on one-element sequences. -/
theorem c3_index_get_error_shape_witness :
    vec_get [.integer 1] (.boolV true) =
      .error (.unsupportedIndexGet (.staticType "Vec") (.staticType "bool")) ∧
    slice_get [.integer 1] (.integer 5) = .ok (.optionV none) ∧
    vec_get [.integer 1] (.integer (-2)) =
      .error (.valueToIntegerCoercionError (-2) "usize") :=
  ⟨((c3_index_get_error_shape [.integer 1] [.integer 1] (.boolV true) 5).1 rfl).1,
   (c3_index_get_error_shape [.integer 1] [.integer 1] (.boolV true) 5).2.2.1
     (by decide) (by decide),
   ((c3_index_get_error_shape [.integer 1] [.integer 1] (.boolV true) (-2)).2.2.2
     (by decide)).1⟩

/-- C1 counterexample: register type hash `7` first as `A`, then as `B`.
The second `Module::ty` returns a conflict error naming the existing entry
(`A`), but the types map afterwards holds the *second* registration's record
(`B`) — the first registration does not remain queryable unchanged, because
`ty` inserts before checking for a previous entry. -/
theorem c1_counterexample_ty_overwrites_on_conflict :
    ((Module.new.ty 7 "A" (.any "A") (fun m => (.ok (), m))).2.ty 7 "B" (.any "B")
        (fun m => (.ok (), m))).1 =
      .error (.conflictingType ⟨["B"]⟩ (.any "A")) ∧
    mapGet (Module.new.ty 7 "A" (.any "A") (fun m => (.ok (), m))).2.types 7 =
      some { name := "A", type_info := .any "A" } ∧
    mapGet ((Module.new.ty 7 "A" (.any "A") (fun m => (.ok (), m))).2.ty 7 "B"
        (.any "B") (fun m => (.ok (), m))).2.types 7 =
      some { name := "B", type_info := .any "B" } ∧
    ({ name := "B", type_info := .any "B" } : ModuleType) ≠
      { name := "A", type_info := .any "A" } :=
  ⟨rfl, rfl, rfl, by decide⟩

/-- C1 (amended): every registration keyed by `Item` (free functions, raw
functions, macros, constants) or by `ModuleAssocKey` (associated functions)
rejects a duplicate key with a conflict error and leaves the module — hence
the first registration — completely unchanged.  `Module::ty` also rejects a
duplicate type hash with an error naming the existing entry's type info, but
because it inserts before checking, the types map afterwards holds the
second registration's record in place of the first. -/
theorem c1_conflict_policy (m : Module) (name : Item) (n : Nat) (h : Handler)
    (mh : Value → Except String Value) (tv : Except VmErrorKind Value)
    (type_hash name_hash : Hash) (type_info : TypeInfo) (fname : String)
    (kind : ModuleAssociatedKind) (tyName : String) (old : ModuleType)
    (installWith : Module → RegOutcome) :
    (mapContains m.functions name = true →
      m.function name n h = (.error (.conflictingFunctionName name), m) ∧
      m.async_function name n h = (.error (.conflictingFunctionName name), m) ∧
      m.raw_fn name h = (.error (.conflictingFunctionName name), m)) ∧
    (mapContains m.macros name = true →
      m.registerMacro name mh = (.error (.conflictingFunctionName name), m)) ∧
    (mapContains m.constants name = true →
      m.constant name tv = (.error (.conflictingConstantName name), m)) ∧
    (mapContains m.associated_functions ⟨type_hash, name_hash, kind⟩ = true →
      m.assoc_fn type_hash type_info name_hash fname kind n h =
        (.error (.conflictingInstanceFunction type_info fname), m)) ∧
    (mapContains m.associated_functions ⟨type_hash, name_hash, .inst⟩ = true →
      m.async_inst_fn type_hash type_info name_hash fname n h =
        (.error (.conflictingInstanceFunction type_info fname), m)) ∧
    (mapGet m.types type_hash = some old →
      (m.ty type_hash tyName type_info installWith).1 =
        .error (.conflictingType ⟨[tyName]⟩ old.type_info) ∧
      mapGet (m.ty type_hash tyName type_info installWith).2.types type_hash =
        some { name := tyName, type_info := type_info }) := by
  refine ⟨?_, ?_, ?_, ?_, ?_, ?_⟩
  · intro hc
    exact ⟨by simp [Module.function, hc], by simp [Module.async_function, hc],
      by simp [Module.raw_fn, hc]⟩
  · intro hc
    simp [Module.registerMacro, hc]
  · intro hc
    simp [Module.constant, hc]
  · intro hc
    simp [Module.assoc_fn, hc]
  · intro hc
    simp [Module.async_inst_fn, hc]
  · intro hget
    constructor
    · simp [Module.ty, mapInsert_snd_eq_mapGet, hget]
    · simp [Module.ty, mapInsert_snd_eq_mapGet, hget, mapGet_mapInsert_self]

/-- C1 witness: the conflict policy applied to a concrete module holding one
free function under `f` and one type under hash `7`. -/
theorem c1_conflict_policy_witness :
    (((Module.new.function ⟨["f"]⟩ 1 (fun s _ => (.ok (), s))).2.function ⟨["f"]⟩ 2
        (fun s _ => (.ok (), s))).1 =
      .error (.conflictingFunctionName ⟨["f"]⟩)) ∧
    ((Module.new.ty 7 "A" (.any "A") (fun m => (.ok (), m))).2.ty 7 "B" (.any "B")
        (fun m => (.ok (), m))).1 =
      .error (.conflictingType ⟨["B"]⟩ (.any "A")) := by
  constructor
  · have := ((c1_conflict_policy
        (Module.new.function ⟨["f"]⟩ 1 (fun s _ => (.ok (), s))).2 ⟨["f"]⟩ 2
        (fun s _ => (.ok (), s)) (fun v => .ok v) (.ok .unit) 0 0 (.any "X") "x"
        .inst "T" { name := "T", type_info := .any "T" }
        (fun m => (.ok (), m))).1 (by decide)).1
    simp [this]
  · have := ((c1_conflict_policy
        (Module.new.ty 7 "A" (.any "A") (fun m => (.ok (), m))).2 ⟨["f"]⟩ 2
        (fun s _ => (.ok (), s)) (fun v => .ok v) (.ok .unit) 7 0 (.any "B") "x"
        .inst "B" { name := "A", type_info := .any "A" }
        (fun m => (.ok (), m))).2.2.2.2.2 rfl).1
    simpa using this

/-- C6: the associated-function registrations `inst_fn`, `field_fn` and
`async_inst_fn` succeed and store the handler record in
`associated_functions` even when the receiver type's hash is absent from the
`types` map — module-level registration never consults `types`. -/
theorem c6_assoc_fn_ignores_type_registration (m : Module)
    (type_hash name_hash : Hash) (type_info : TypeInfo) (fname : String)
    (protocol : Protocol) (n : Nat) (h : Handler)
    (_hty : mapContains m.types type_hash = false)
    (hinst : mapContains m.associated_functions ⟨type_hash, name_hash, .inst⟩ = false)
    (hfield : mapContains m.associated_functions
      ⟨type_hash, name_hash, .fieldFn protocol⟩ = false) :
    ((m.inst_fn type_hash type_info name_hash fname n h).1 = .ok () ∧
      mapGet (m.inst_fn type_hash type_info name_hash fname n h).2.associated_functions
          ⟨type_hash, name_hash, .inst⟩ =
        some { handler := h, args := some n, type_info := type_info, name := fname }) ∧
    ((m.field_fn protocol type_hash type_info name_hash fname n h).1 = .ok () ∧
      mapGet (m.field_fn protocol type_hash type_info name_hash fname n
            h).2.associated_functions ⟨type_hash, name_hash, .fieldFn protocol⟩ =
        some { handler := h, args := some n, type_info := type_info, name := fname }) ∧
    ((m.async_inst_fn type_hash type_info name_hash fname n h).1 = .ok () ∧
      mapGet (m.async_inst_fn type_hash type_info name_hash fname n
            h).2.associated_functions ⟨type_hash, name_hash, .inst⟩ =
        some { handler := h, args := some n, type_info := type_info, name := fname }) := by
  refine ⟨⟨?_, ?_⟩, ⟨?_, ?_⟩, ⟨?_, ?_⟩⟩ <;>
    simp [Module.inst_fn, Module.field_fn, Module.async_inst_fn, Module.assoc_fn,
      hinst, hfield, mapGet_mapInsert_self]

/-- C6 witness: registering an instance function on the empty module, whose
`types` map does not contain the receiver's hash `9`. -/
theorem c6_assoc_fn_ignores_type_registration_witness :
    (Module.new.inst_fn 9 (.any "T") 4 "len" 1
        (fun s _ => (.ok (), s))).1 = .ok () :=
  (c6_assoc_fn_ignores_type_registration Module.new 9 4 (.any "T") "len"
    .GET 1 (fun s _ => (.ok (), s)) (by decide) (by decide) (by decide)).1.1

/-- C7: `Module::constant` converts the supplied host value into the VM
constant representation at registration time: if `to_value` fails, or the
`Value`-to-`ConstValue` conversion fails, the call returns a `ValueError`
immediately and the module (hence the constants map) is unchanged; on
success the converted `ConstValue` itself is stored under the `Item`. -/
theorem c7_constant_converts_at_registration (m : Module) (name : Item)
    (e : VmErrorKind) (v : Value) (cv : ConstValue)
    (hfree : mapContains m.constants name = false) :
    (m.constant name (.error e) = (.error (.valueError e), m)) ∧
    (constValueFromValue v = .error e →
      m.constant name (.ok v) = (.error (.valueError e), m)) ∧
    (constValueFromValue v = .ok cv →
      m.constant name (.ok v) =
        (.ok (), { m with constants := (mapInsert m.constants name cv).1 }) ∧
      mapGet (m.constant name (.ok v)).2.constants name = some cv) := by
  refine ⟨?_, ?_, ?_⟩
  · simp [Module.constant, hfree]
  · intro hcv
    simp [Module.constant, hfree, hcv]
  · intro hcv
    constructor
    · simp [Module.constant, hfree, hcv]
    · simp [Module.constant, hfree, hcv, mapGet_mapInsert_self]

/-- C7 witness: on the empty module, a failing conversion (a future value
has no constant representation) reports a `ValueError` and leaves the module
unchanged, and a successful conversion stores the converted integer. -/
theorem c7_constant_converts_at_registration_witness :
    Module.new.constant ⟨["K"]⟩ (.ok (.future (.ok .unit))) =
      (.error (.valueError (.expectedInteger (.staticType "Future"))), Module.new) ∧
    mapGet (Module.new.constant ⟨["TEN"]⟩ (.ok (.integer 10))).2.constants ⟨["TEN"]⟩ =
      some (.integer 10) :=
  ⟨(c7_constant_converts_at_registration Module.new ⟨["K"]⟩
      (.expectedInteger (.staticType "Future")) (.future (.ok .unit)) .unit
      (by decide)).2.1 rfl,
   ((c7_constant_converts_at_registration Module.new ⟨["TEN"]⟩ .stackError
      (.integer 10) (.integer 10) (by decide)).2.2 rfl).2⟩

/-- C8: `Module::function` and `Module::async_function` share the `functions`
map keyed by `Item`: after either succeeds, registering the other under the
same path fails with a name-conflict error and leaves the module unchanged;
and the asynchronous call path pushes a `Future` value wrapping the
handler's (eventual) outcome rather than the immediate result. -/
theorem c8_sync_async_shared_key_space_and_future (m : Module) (name : Item)
    (n n2 : Nat) (h h2 : Handler)
    (coerce : Nat → Value → Except String Value)
    (body : List Value → Except VmErrorKind Value)
    (stack cargs : List Value) (k : Nat)
    (hfree : mapContains m.functions name = false) :
    ((m.function name n h).1 = .ok () ∧
      (m.function name n h).2.async_function name n2 h2 =
        (.error (.conflictingFunctionName name), (m.function name n h).2)) ∧
    ((m.async_function name n h).1 = .ok () ∧
      (m.async_function name n h).2.function name n2 h2 =
        (.error (.conflictingFunctionName name), (m.async_function name n h).2)) ∧
    (k ≤ stack.length →
      coerceArgs coerce 0 ((stack.take k).reverse) = .ok cargs →
      AsyncFunction.fn_call k coerce body stack k =
        (.ok (), Value.future (body cargs) :: stack.drop k)) := by
  refine ⟨⟨?_, ?_⟩, ⟨?_, ?_⟩, ?_⟩
  · simp [Module.function, hfree]
  · simp [Module.function, Module.async_function, hfree, mapContains_mapInsert_self]
  · simp [Module.async_function, hfree]
  · simp [Module.function, Module.async_function, hfree, mapContains_mapInsert_self]
  · intro hlen hco
    simp [AsyncFunction.fn_call, drain_stack_top, Nat.not_lt.mpr hlen, hco]

/-- C8 witness: on the empty module, a sync registration under `f` makes the
async registration under `f` fail; and a concrete asynchronous call with one
argument pushes a `Future` value. -/
theorem c8_sync_async_shared_key_space_and_future_witness :
    ((Module.new.function ⟨["f"]⟩ 1 (fun s _ => (.ok (), s))).2.async_function
        ⟨["f"]⟩ 1 (fun s _ => (.ok (), s))).1 =
      .error (.conflictingFunctionName ⟨["f"]⟩) ∧
    AsyncFunction.fn_call 1 valueCoerce optionSomeBody [.integer 3] 1 =
      (.ok (), [Value.future (.ok (.optionV (some (.integer 3))))]) := by
  constructor
  · have := ((c8_sync_async_shared_key_space_and_future Module.new ⟨["f"]⟩ 1 1
        (fun s _ => (.ok (), s)) (fun s _ => (.ok (), s)) valueCoerce
        optionSomeBody [] [] 0 (by decide)).1).2
    simp [this]
  · have := (c8_sync_async_shared_key_space_and_future Module.new ⟨["f"]⟩ 1 1
        (fun s _ => (.ok (), s)) (fun s _ => (.ok (), s)) valueCoerce
        optionSomeBody [.integer 3] [.integer 3] 1 (by decide)).2.2
        (by decide) (by simp [coerceArgs, valueCoerce])
    simpa [optionSomeBody] using this

/-- C2: every fixed-arity handler shape produced by the calling convention
(`Function`, `AsyncFunction`, `InstFn`, `AsyncInstFn`) rejects any argument
count different from its declared arity `N` with `BadArgumentCount` carrying
the actual count and `expected = N` (for the instance shapes `N` counts the
receiver); called with exactly `N` well-typed arguments it succeeds and the
final stack is the pre-call stack with the `N` arguments drained and one
result pushed, so its height is the pre-call height minus `N` plus 1. -/
theorem c2_fixed_arity_and_net_stack_height (n count args : Nat)
    (coerce : Nat → Value → Except String Value)
    (coerceInst : Value → Except String Value)
    (body : List Value → Except VmErrorKind Value)
    (bodyInst : Value → List Value → Except VmErrorKind Value)
    (stack : List Value) :
    (args ≠ n →
      Function.fn_call n coerce body stack args =
        (.error (.badArgumentCount args n), stack) ∧
      AsyncFunction.fn_call n coerce body stack args =
        (.error (.badArgumentCount args n), stack)) ∧
    (args ≠ count + 1 →
      InstFn.fn_call count coerceInst coerce bodyInst stack args =
        (.error (.badArgumentCount args (count + 1)), stack) ∧
      AsyncInstFn.fn_call count coerceInst coerce bodyInst stack args =
        (.error (.badArgumentCount args (count + 1)), stack)) ∧
    (∀ cargs ret, n ≤ stack.length →
      coerceArgs coerce 0 ((stack.take n).reverse) = .ok cargs →
      body cargs = .ok ret →
      Function.fn_call n coerce body stack n = (.ok (), ret :: stack.drop n) ∧
      (ret :: stack.drop n).length = stack.length - n + 1) ∧
    (∀ cargs, n ≤ stack.length →
      coerceArgs coerce 0 ((stack.take n).reverse) = .ok cargs →
      AsyncFunction.fn_call n coerce body stack n =
        (.ok (), Value.future (body cargs) :: stack.drop n) ∧
      (Value.future (body cargs) :: stack.drop n).length = stack.length - n + 1) ∧
    (∀ inst restArgs instV cargs ret,
      (stack.take (count + 1)).reverse = inst :: restArgs →
      count + 1 ≤ stack.length →
      coerceInst inst = .ok instV →
      coerceArgs coerce 1 restArgs = .ok cargs →
      bodyInst instV cargs = .ok ret →
      InstFn.fn_call count coerceInst coerce bodyInst stack (count + 1) =
        (.ok (), ret :: stack.drop (count + 1)) ∧
      (ret :: stack.drop (count + 1)).length = stack.length - (count + 1) + 1) ∧
    (∀ inst restArgs instV cargs,
      (stack.take (count + 1)).reverse = inst :: restArgs →
      count + 1 ≤ stack.length →
      coerceInst inst = .ok instV →
      coerceArgs coerce 1 restArgs = .ok cargs →
      AsyncInstFn.fn_call count coerceInst coerce bodyInst stack (count + 1) =
        (.ok (), Value.future (bodyInst instV cargs) :: stack.drop (count + 1)) ∧
      (Value.future (bodyInst instV cargs) :: stack.drop (count + 1)).length =
        stack.length - (count + 1) + 1) := by
  refine ⟨?_, ?_, ?_, ?_, ?_, ?_⟩
  · intro hne
    exact ⟨by simp [Function.fn_call, hne], by simp [AsyncFunction.fn_call, hne]⟩
  · intro hne
    exact ⟨by simp [InstFn.fn_call, hne], by simp [AsyncInstFn.fn_call, hne]⟩
  · intro cargs ret hlen hco hbody
    refine ⟨?_, ?_⟩
    · simp [Function.fn_call, drain_stack_top, Nat.not_lt.mpr hlen, hco, hbody]
    · simp [List.length_drop]
  · intro cargs hlen hco
    refine ⟨?_, ?_⟩
    · simp [AsyncFunction.fn_call, drain_stack_top, Nat.not_lt.mpr hlen, hco]
    · simp [List.length_drop]
  · intro inst restArgs instV cargs ret hdrain hlen hinst hco hbody
    refine ⟨?_, ?_⟩
    · simp [InstFn.fn_call, drain_stack_top, Nat.not_lt.mpr hlen, hdrain, hinst,
        hco, hbody]
    · simp [List.length_drop]
  · intro inst restArgs instV cargs hdrain hlen hinst hco
    refine ⟨?_, ?_⟩
    · simp [AsyncInstFn.fn_call, drain_stack_top, Nat.not_lt.mpr hlen, hdrain,
        hinst, hco]
    · simp [List.length_drop]

/-- C2 witness: a two-argument handler called on a three-value stack: the
wrong count `3` reports actual `3` and expected `2` leaving the stack as it
was, and the exact count drains two values and pushes one result, net height
3 − 2 + 1 = 2. -/
theorem c2_fixed_arity_and_net_stack_height_witness :
    Function.fn_call 2 valueCoerce (fun _ => .ok (.integer 13))
        [.integer 3, .integer 10, .unit] 3 =
      (.error (.badArgumentCount 3 2), [.integer 3, .integer 10, .unit]) ∧
    Function.fn_call 2 valueCoerce (fun _ => .ok (.integer 13))
        [.integer 3, .integer 10, .unit] 2 =
      (.ok (), [.integer 13, .unit]) ∧
    [Value.integer 13, .unit].length =
      [Value.integer 3, .integer 10, .unit].length - 2 + 1 := by
  have h := c2_fixed_arity_and_net_stack_height 2 0 3 valueCoerce
    (fun v => .ok v) (fun _ => .ok (.integer 13)) (fun _ _ => .ok .unit)
    [.integer 3, .integer 10, .unit]
  refine ⟨(h.1 (by decide)).1, ?_, ?_⟩
  · have hc := (h.2.2.1 [.integer 10, .integer 3] (.integer 13) (by decide)
      rfl rfl).1
    simpa using hc
  · have hc := (h.2.2.1 [.integer 10, .integer 3] (.integer 13) (by decide)
      rfl rfl).2
    exact hc

/-- C9: when any of the four fixed-arity call paths fails the argument-count
check, the operand stack is returned exactly as supplied — the check precedes
`drain_stack_top`, so no argument is consumed and no result is pushed. -/
theorem c9_arity_mismatch_preserves_stack (n count args : Nat)
    (coerce : Nat → Value → Except String Value)
    (coerceInst : Value → Except String Value)
    (body : List Value → Except VmErrorKind Value)
    (bodyInst : Value → List Value → Except VmErrorKind Value)
    (stack : List Value) :
    (args ≠ n →
      Function.fn_call n coerce body stack args =
        (.error (.badArgumentCount args n), stack) ∧
      (Function.fn_call n coerce body stack args).2 = stack ∧
      AsyncFunction.fn_call n coerce body stack args =
        (.error (.badArgumentCount args n), stack) ∧
      (AsyncFunction.fn_call n coerce body stack args).2 = stack) ∧
    (args ≠ count + 1 →
      InstFn.fn_call count coerceInst coerce bodyInst stack args =
        (.error (.badArgumentCount args (count + 1)), stack) ∧
      (InstFn.fn_call count coerceInst coerce bodyInst stack args).2 = stack ∧
      AsyncInstFn.fn_call count coerceInst coerce bodyInst stack args =
        (.error (.badArgumentCount args (count + 1)), stack) ∧
      (AsyncInstFn.fn_call count coerceInst coerce bodyInst stack args).2 = stack) := by
  constructor
  · intro hne
    refine ⟨by simp [Function.fn_call, hne], by simp [Function.fn_call, hne],
      by simp [AsyncFunction.fn_call, hne], by simp [AsyncFunction.fn_call, hne]⟩
  · intro hne
    refine ⟨by simp [InstFn.fn_call, hne], by simp [InstFn.fn_call, hne],
      by simp [AsyncInstFn.fn_call, hne], by simp [AsyncInstFn.fn_call, hne]⟩

/-- C9 witness: calling a one-argument handler with zero arguments on a
two-value stack fails the arity check and leaves both values in place. -/
theorem c9_arity_mismatch_preserves_stack_witness :
    (Function.fn_call 1 valueCoerce optionSomeBody [.integer 1, .unit] 0).2 =
      [.integer 1, .unit] ∧
    (InstFn.fn_call 1 (fun v => .ok v) valueCoerce
        (fun _ _ => .ok .unit) [.integer 1, .unit] 5).2 = [.integer 1, .unit] := by
  have h := c9_arity_mismatch_preserves_stack 1 1 0 valueCoerce (fun v => .ok v)
    optionSomeBody (fun _ _ => .ok .unit) [.integer 1, .unit]
  have h5 := c9_arity_mismatch_preserves_stack 1 1 5 valueCoerce (fun v => .ok v)
    optionSomeBody (fun _ _ => .ok .unit) [.integer 1, .unit]
  exact ⟨(h.1 (by decide)).2.1, (h5.2 (by decide)).2.1⟩

/-- Coercion of the drained arguments reports the ordinal of the first
parameter whose conversion fails: if every value before position `pre.length`
coerces and the value at it fails with `msg`, the whole coercion fails with
`BadArgument` carrying `base + pre.length`. -/
theorem coerceArgs_append_error (coerce : Nat → Value → Except String Value)
    (msg : String) (pre : List Value) :
    ∀ (base : Nat) (ws : List Value) (v : Value) (rest : List Value),
    coerceArgs coerce base pre = .ok ws →
    coerce (base + pre.length) v = .error msg →
    coerceArgs coerce base (pre ++ v :: rest) =
      .error (.badArgument msg (base + pre.length)) := by
  induction pre with
  | nil =>
    intro base ws v rest _ hv
    simp only [List.length_nil, Nat.add_zero] at hv
    simp [coerceArgs, hv]
  | cons p ps ih =>
    intro base ws v rest hpre hv
    have hlen : base + (p :: ps).length = base + 1 + ps.length := by
      simp [List.length_cons]
      omega
    rw [hlen] at hv ⊢
    rcases hc : coerce base p with e | w
    · simp [coerceArgs, hc] at hpre
    · rcases hps : coerceArgs coerce (base + 1) ps with e | ws'
      · simp [coerceArgs, hc, hps] at hpre
      · simp [coerceArgs, hc, ih (base + 1) ws' v rest hps hv]

/-- C4: when coercion of an argument fails, the call reports `BadArgument`
at the argument's 0-indexed ordinal: for free functions the `i`-th drained
argument is position `i`; for instance shapes the implicit receiver is
position 0 and the `i`-th non-receiver parameter position `i`; and the
declared arity of an instance shape counts the receiver, so a count mismatch
reports `expected = count + 1`. -/
theorem c4_bad_argument_ordinals
    (coerce : Nat → Value → Except String Value)
    (coerceInst : Value → Except String Value)
    (body : List Value → Except VmErrorKind Value)
    (bodyInst : Value → List Value → Except VmErrorKind Value)
    (n count : Nat) (stack pre rest ws : List Value) (v inst : Value)
    (restArgs : List Value) (msg : String) :
    ((stack.take n).reverse = pre ++ v :: rest → n ≤ stack.length →
      coerceArgs coerce 0 pre = .ok ws → coerce pre.length v = .error msg →
      Function.fn_call n coerce body stack n =
        (.error (.badArgument msg pre.length), stack.drop n) ∧
      AsyncFunction.fn_call n coerce body stack n =
        (.error (.badArgument msg pre.length), stack.drop n)) ∧
    ((stack.take (count + 1)).reverse = inst :: restArgs →
      count + 1 ≤ stack.length →
      coerceInst inst = .error msg →
      InstFn.fn_call count coerceInst coerce bodyInst stack (count + 1) =
        (.error (.badArgument msg 0), stack.drop (count + 1)) ∧
      AsyncInstFn.fn_call count coerceInst coerce bodyInst stack (count + 1) =
        (.error (.badArgument msg 0), stack.drop (count + 1))) ∧
    (∀ instV, (stack.take (count + 1)).reverse = inst :: (pre ++ v :: rest) →
      count + 1 ≤ stack.length →
      coerceInst inst = .ok instV →
      coerceArgs coerce 1 pre = .ok ws → coerce (1 + pre.length) v = .error msg →
      InstFn.fn_call count coerceInst coerce bodyInst stack (count + 1) =
        (.error (.badArgument msg (1 + pre.length)), stack.drop (count + 1))) ∧
    (∀ args, args ≠ count + 1 →
      (InstFn.fn_call count coerceInst coerce bodyInst stack args).1 =
        .error (.badArgumentCount args (count + 1))) := by
  refine ⟨?_, ?_, ?_, ?_⟩
  · intro hdrain hlen hpre hv
    have hco := coerceArgs_append_error coerce msg pre 0 ws v rest hpre
      (by simpa using hv)
    constructor
    · simp [Function.fn_call, drain_stack_top, Nat.not_lt.mpr hlen, hdrain, hco]
    · simp [AsyncFunction.fn_call, drain_stack_top, Nat.not_lt.mpr hlen, hdrain, hco]
  · intro hdrain hlen hinst
    constructor
    · simp [InstFn.fn_call, drain_stack_top, Nat.not_lt.mpr hlen, hdrain, hinst]
    · simp [AsyncInstFn.fn_call, drain_stack_top, Nat.not_lt.mpr hlen, hdrain, hinst]
  · intro instV hdrain hlen hinstOk hpre hv
    have hco := coerceArgs_append_error coerce msg pre 1 ws v rest hpre hv
    simp [InstFn.fn_call, drain_stack_top, Nat.not_lt.mpr hlen, hdrain,
      hinstOk, hco]
  · intro args hne
    simp [InstFn.fn_call, hne]

/-- C4 witness: a two-argument handler whose second argument fails coercion
reports position 1 (the first argument, an integer, coerces fine), and an
instance handler whose receiver fails coercion reports position 0. -/
theorem c4_bad_argument_ordinals_witness :
    Function.fn_call 2
        (fun _ v => match v with | .integer _ => .ok v | _ => .error "expected integer")
        (fun _ => .ok .unit) [.unit, .integer 10, .boolV true] 2 =
      (.error (.badArgument "expected integer" 1), [.boolV true]) ∧
    InstFn.fn_call 0 (fun _ => .error "expected MyType")
        (fun _ v => .ok v) (fun _ _ => .ok .unit) [.unit] 1 =
      (.error (.badArgument "expected MyType" 0), []) := by
  have h := c4_bad_argument_ordinals
    (fun _ v => match v with | .integer _ => .ok v | _ => .error "expected integer")
    (fun _ => .error "expected MyType") (fun _ => .ok .unit) (fun _ _ => .ok .unit)
    2 0 [.unit, .integer 10, .boolV true] [.integer 10] [] [.integer 10]
    .unit .unit [] "expected integer"
  have h2 := c4_bad_argument_ordinals
    (fun _ v => match v with | .integer _ => .ok v | _ => .error "expected integer")
    (fun _ => .error "expected MyType") (fun _ => .ok .unit) (fun _ _ => .ok .unit)
    2 0 [Value.unit] [] [] [] .unit .unit [] "expected MyType"
  constructor
  · have hc := (h.1 rfl (by decide) rfl rfl).1
    simpa using hc
  · have hc := (h2.2.1 rfl (by decide) rfl).1
    simpa using hc

end Runestick
